import Mathlib

/-!
# Verification of the cucumber application-server core

Shallow embedding of the request router, middleware execution engine,
dispatcher fallback policies, panic recovery middleware and paginator of
the `cucumber` framework, together with proofs of the behavioural
properties stated in its specification.

The dispatcher (`App.handleHTTPRequest`, `App.ServeHTTP` in `app.go`),
the panic-recovery middleware (`PanicRecovery`) and the paginator
(`NewPaginator`) are embedded from the source.  The files defining the
`Context` execution engine (`Next`/`Abort`), the route registration
(`Handle`, `combineHandlers`) and the path trie are not among the
sources; those parts are modelled from the specification, as marked on
each definition, and trie lookups are abstracted as parameters of the
dispatcher model.
-/

namespace Cucumber

/-! ## Middleware execution engine

Modelled from the spec: `context.go` (the `Context` type with its
`Next`/`Abort` operations) is not among the sources.  The spec, §4.3:
`Next()` "increments the cursor and, while cursor is within chain
bounds, invokes the handler at that position, then increments again";
`Abort()` "forces the cursor to a sentinel beyond the chain length so
that subsequent `Next()` calls are no-ops".  Handlers are represented
as lists of primitive actions (do observable work, call `Next`, call
`Abort`); chain execution is a small-step machine over the cursor, the
observable trace and a stack of the active handlers' remaining
actions. -/

/-- One primitive action a handler can perform: record a piece of
observable work, call `Context.Next`, or call `Context.Abort`. -/
inductive Act where
  | log (s : String) : Act
  | callNext : Act
  | abortChain : Act
deriving Repr, DecidableEq

/-- A handler is the sequence of actions it performs. -/
abbrev Handler := List Act

/-- A handler chain is an ordered list of handlers. -/
abbrev HandlersChain := List Handler

/-- Modelled from the spec: the sentinel the cursor is forced to by
`Abort()`, "beyond the chain length" (chains are capped at 63 handlers,
see `combineHandlers`). -/
def abortSentinel : Int := 64

/-- Execution state of a handler chain: the (read-only) chain, the
cursor (`c.index`, starting at `-1`), the trace of observable work
performed so far, and the stack of active handlers' remaining
actions. -/
structure ExecState where
  chain : HandlersChain
  index : Int
  trace : List String
  stack : List (List Act)
deriving Repr, DecidableEq

/-- Modelled from the spec: one call of `Context.Next` as seen from the
machine.  The cursor is incremented; if it lands inside the chain the
handler at that position becomes active (pushed on the stack), otherwise
nothing further happens. -/
def doNext (st : ExecState) : ExecState :=
  let i := st.index + 1
  if 0 ≤ i ∧ i < (st.chain.length : Int) then
    { st with index := i, stack := st.chain.getD i.toNat [] :: st.stack }
  else
    { st with index := i }

/-- Modelled from the spec: run the machine for `fuel` steps.  A `log`
action appends to the trace; `callNext` performs `doNext` (the pushed
handler runs before the caller's remaining actions, giving wrap-around
semantics); `abortChain` forces the cursor to the sentinel.  When the
active handler has no actions left, control returns to the `Next` loop
that invoked it: the cursor is incremented and, if still within bounds,
the handler at the new position becomes active, otherwise that loop
exits and the handler below resumes. -/
def run : Nat → ExecState → ExecState
  | 0, st => st
  | fuel + 1, st =>
    match st.stack with
    | [] => st
    | [] :: rest =>
      let i := st.index + 1
      if 0 ≤ i ∧ i < (st.chain.length : Int) then
        run fuel { st with index := i, stack := st.chain.getD i.toNat [] :: rest }
      else
        run fuel { st with index := i, stack := rest }
    | (Act.log s :: as) :: rest =>
      run fuel { st with trace := st.trace ++ [s], stack := as :: rest }
    | (Act.callNext :: as) :: rest =>
      run fuel (doNext { st with stack := as :: rest })
    | (Act.abortChain :: as) :: rest =>
      run fuel { st with index := abortSentinel, stack := as :: rest }

/-- Dispatching a matched request seeds the context with the chain and
cursor `-1` and calls `Next()` once (`app.go`, `handleHTTPRequest`:
`c.Next()`). -/
def execChain (chain : HandlersChain) : ExecState :=
  run 200 (doNext { chain := chain, index := -1, trace := [], stack := [] })

/-! ## Dispatcher (`app.go`, `App.handleHTTPRequest`)

The per-method trie and the `allowed` scan live in files that are not
among the sources (`tree.go`, `router.go`); their results are abstracted
as fields of `RouterConf`, so the dispatcher logic below is a direct
transcription of `handleHTTPRequest`. -/

/-- From `options.go`: the generic 404 body. -/
def default404Body : String := "404 page not found"

/-- From `options.go`: the generic 405 body. -/
def default405Body : String := "405 method not allowed"

/-- The dispatcher's environment: the three fallback options from
`Options`, and the outcomes of the trie operations, abstracted per
method and path: `hasTree` is `a.router.trees[method] != nil`, `found`
is `getValue(path).handlers != nil`, `tsr` the trailing-slash flag of
`getValue`, `findCI` the result of `findCaseInsensitivePath` on the
cleaned path, and `allowedNonEmpty` whether `router.allowed(path,
method)` is a non-empty string (another method's trie matches). -/
structure RouterConf where
  redirectTrailingSlash : Bool
  redirectFixedPath : Bool
  handleMethodNotAllowed : Bool
  hasTree : String → Bool
  found : String → String → Bool
  tsr : String → String → Bool
  findCI : String → String → Option String
  allowedNonEmpty : String → String → Bool

/-- Outcome of dispatching one request: the matched chain was run, a
redirect was written, or `ServeError` was invoked with a status and
generic body. -/
inductive DispatchOutcome where
  | handled : DispatchOutcome
  | redirect (code : Nat) (location : String) : DispatchOutcome
  | serveError (code : Nat) (body : String) : DispatchOutcome
deriving Repr, DecidableEq

/-- From `app.go` lines 476/477: the corrected path for a trailing-slash
redirect — `path + "/"`, overwritten with `path[:len-1]` when the path
is longer than one byte and ends in `'/'`. -/
def fixTrailingSlash (path : String) : String :=
  if path.data.length > 1 ∧ path.data.getLast? = some '/' then
    String.mk path.data.dropLast
  else
    String.mk (path.data ++ ['/'])

/-- From `app.go` lines 498–507: the 405/404 fallback after all matching and
redirection has failed. -/
def serveFallback (a : RouterConf) (method path : String) : DispatchOutcome :=
  if a.handleMethodNotAllowed ∧ a.allowedNonEmpty path method then
    DispatchOutcome.serveError 405 default405Body
  else
    DispatchOutcome.serveError 404 default404Body

/-- From `app.go` lines 457–508: `App.handleHTTPRequest`.  Exact match runs
the chain; otherwise, unless the method is CONNECT or the path is "/",
a trailing-slash redirect (301 for GET, 307 for any other method) and
then a fixed-path redirect are attempted, subject to the corresponding
options; anything else falls through to the 405/404 fallback. -/
def handleHTTPRequest (a : RouterConf) (method path : String) : DispatchOutcome :=
  if a.hasTree method then
    if a.found method path then
      DispatchOutcome.handled
    else if method ≠ "CONNECT" ∧ path ≠ "/" then
      let code : Nat := if method = "GET" then 301 else 307
      if a.tsr method path ∧ a.redirectTrailingSlash then
        DispatchOutcome.redirect code (fixTrailingSlash path)
      else if a.redirectFixedPath then
        match a.findCI method path with
        | some fixedPath => DispatchOutcome.redirect code fixedPath
        | none => serveFallback a method path
      else
        serveFallback a method path
    else
      serveFallback a method path
  else
    serveFallback a method path

/-- Router configuration witnessing the trailing-slash scenarios: a trie
exists for every method, no exact match, trailing-slash mismatch
reported, redirection options disabled, method-not-allowed detection
enabled and matching another method. -/
def tsrDisabledConf : RouterConf :=
  { redirectTrailingSlash := false
    redirectFixedPath := false
    handleMethodNotAllowed := true
    hasTree := fun _ => true
    found := fun _ _ => false
    tsr := fun _ _ => true
    findCI := fun _ _ => none
    allowedNonEmpty := fun _ _ => true }

/-- The configuration `tsrDisabledConf` with trailing-slash redirection enabled. -/
def tsrEnabledConf : RouterConf :=
  { tsrDisabledConf with redirectTrailingSlash := true }

/-- Router configuration for the 405-precedence witness: every
correction option enabled but inapplicable, method-not-allowed
detection enabled, another method's trie matching. -/
def mnaConf : RouterConf :=
  { redirectTrailingSlash := true
    redirectFixedPath := true
    handleMethodNotAllowed := true
    hasTree := fun _ => true
    found := fun _ _ => false
    tsr := fun _ _ => false
    findCI := fun _ _ => none
    allowedNonEmpty := fun _ _ => true }

/-- The configuration `mnaConf` with method-not-allowed detection disabled. -/
def mnaDisabledConf : RouterConf :=
  { mnaConf with handleMethodNotAllowed := false }

/-- Router configuration for the CONNECT/root suppression witness: both
redirect options enabled and applicable (trailing-slash mismatch
reported, case-insensitive correction available). -/
def connectConf : RouterConf :=
  { redirectTrailingSlash := true
    redirectFixedPath := true
    handleMethodNotAllowed := false
    hasTree := fun _ => true
    found := fun _ _ => false
    tsr := fun _ _ => true
    findCI := fun _ _ => some "/A"
    allowedNonEmpty := fun _ _ => false }

/-! ## Panic recovery middleware (`PanicRecovery`, embedded from source) -/

/-- Whether `pat` is a prefix of the second list. -/
def startsWithPat : List Char → List Char → Bool
  | [], _ => true
  | _ :: _, [] => false
  | a :: as, b :: bs => a == b && startsWithPat as bs

/-- Go `strings.Contains`: whether `pat` occurs somewhere in the list. -/
def hasSubstr (pat : List Char) : List Char → Bool
  | [] => startsWithPat pat []
  | b :: bs => startsWithPat pat (b :: bs) || hasSubstr pat bs

/-- The value a handler panicked with, classified by the type switches
the recovery middleware performs: a `*net.OpError` wrapping a
`*os.SyscallError` with the given message, a `*net.OpError` wrapping
something else, some other value implementing `error`, or a value that
does not implement `error` at all (e.g. a plain string). -/
inductive PanicValue where
  | netOpSyscall (msg : String) : PanicValue
  | netOpOther (msg : String) : PanicValue
  | otherError (msg : String) : PanicValue
  | nonError (msg : String) : PanicValue
deriving Repr, DecidableEq

/-- The broken-pipe test of `PanicRecovery`: the panic value is a
`*net.OpError` wrapping a `*os.SyscallError` whose lower-cased message
contains "broken pipe" or "connection reset by peer". -/
def brokenPipe : PanicValue → Bool
  | PanicValue.netOpSyscall msg =>
    let low := msg.data.map Char.toLower
    hasSubstr "broken pipe".data low || hasSubstr "connection reset by peer".data low
  | _ => false

/-- What the deferred recovery block does: nothing (no panic), record
the error on the context and abort without writing (`c.Error`;
`c.Abort`), serve a 500 (`c.ServeError`), or itself panic because the
type assertion `err.(error)` fails on a non-`error` panic value. -/
inductive RecoveryOutcome where
  | noPanic : RecoveryOutcome
  | recordAndAbort (v : PanicValue) : RecoveryOutcome
  | serve500 (v : PanicValue) : RecoveryOutcome
  | assertionPanic : RecoveryOutcome
deriving Repr, DecidableEq

/-- From the middleware source: `PanicRecovery`, i.e. the
deferred `recover()` block, as a function of the panic value the
downstream chain surfaced (`none` when it returned normally).  Broken
pipe: `c.Error(err.(error)); c.Abort()`.  Otherwise
`c.ServeError(500, err.(error))` — the type assertion panics when the
recovered value does not implement `error`. -/
def PanicRecovery : Option PanicValue → RecoveryOutcome
  | none => RecoveryOutcome.noPanic
  | some v =>
    if brokenPipe v then
      RecoveryOutcome.recordAndAbort v
    else
      match v with
      | PanicValue.nonError _ => RecoveryOutcome.assertionPanic
      | _ => RecoveryOutcome.serve500 v

/-! ## Pooled context lifecycle (`app.go`, `App.ServeHTTP`) -/

/-- The method and path of an incoming request. -/
structure HTTPRequest where
  method : String
  path : String
deriving Repr, DecidableEq

/-- Observable state of the response-writer wrapper: status code,
accumulated byte count, whether headers were flushed. -/
structure ResponseWriterState where
  status : Nat
  size : Int
  written : Bool
deriving Repr, DecidableEq

/-- From `App.ServeHTTP`: `c.writermem.reset(w)` — the wrapper counters are re-initialised for
the new underlying writer. -/
def resetWriter : ResponseWriterState :=
  { status := 200, size := 0, written := false }

/-- The per-request mutable state a handler can observe on the pooled
context. -/
structure ReqContext where
  request : Option HTTPRequest
  handlers : HandlersChain
  index : Int
  params : List (String × String)
  errors : List String
  writer : ResponseWriterState
deriving Repr, DecidableEq

/-- Modelled from the spec: `Context.reset` (`context.go` is not among
the sources).  Spec §3/§5: on acquisition "fields reset" — every field
read by a handler is fully overwritten before reuse: the borrowed
handler chain is dropped, the cursor returns to the `-1` sentinel, the
parameter list and error accumulator are emptied. -/
def ctxReset (c : ReqContext) : ReqContext :=
  { c with handlers := [], index := -1, params := [], errors := [] }

/-- From `app.go` lines 423–439, `App.ServeHTTP`: acquire a context from
the pool, reset the response writer for the new connection, store the
request, reset the remaining fields, then handle.  `handle` is the
request-handling step (`handleHTTPRequest` driving the registered
chain), an arbitrary function of the request and the context it is
given. -/
def ServeHTTP (handle : HTTPRequest → ReqContext → ReqContext)
    (c : ReqContext) (r : HTTPRequest) : ReqContext :=
  handle r (ctxReset { c with writer := resetWriter, request := some r })

/-! ## Route registration (`router.go`, not among the sources) -/

/-- Modelled from the spec: the handler-chain ceiling — registration
panics when "the resulting handler-chain length would exceed an
implementation ceiling (… a fixed maximum, e.g., 63 handlers per
chain)".  `none` models the registration-time panic. -/
def combineHandlers (groupHandlers routeHandlers : HandlersChain) :
    Option HandlersChain :=
  if groupHandlers.length + routeHandlers.length > 63 then none
  else some (groupHandlers ++ routeHandlers)

/-- Modelled from the spec: `Handle`'s fail-fast method validation —
"clearly invalid methods (uppercase-only, non-empty, no embedded
spaces) … abort registration immediately": a method is valid when it is
non-empty and consists only of uppercase ASCII letters. -/
def validMethod (m : String) : Bool :=
  !(m == "") && m.data.all fun ch => 'A' ≤ ch && ch ≤ 'Z'

/-- Modelled from the spec: `Router.Handle(method, path, handlers)` —
panics (`none`) on an invalid method or an oversized combined chain,
otherwise registers the route with the group middleware prepended. -/
def routerHandle (method path : String)
    (groupHandlers routeHandlers : HandlersChain) :
    Option (String × HandlersChain) :=
  if validMethod method then
    match combineHandlers groupHandlers routeHandlers with
    | some chain => some (path, chain)
    | none => none
  else
    none

/-! ## Paginator (embedded from source) -/

/-- The source variable `PaginatorPageDefault`. -/
def PaginatorPageDefault : Int := 1

/-- The source variable `PaginatorPerPageDefault`. -/
def PaginatorPerPageDefault : Int := 20

/-- Largest `int64` value. -/
def int64Max : Int := 2 ^ 63 - 1

/-- Smallest `int64` value. -/
def int64Min : Int := -(2 ^ 63)

/-- Two's-complement wrap-around of Go `int64` arithmetic. -/
def wrap64 (n : Int) : Int := (n + 2 ^ 63) % 2 ^ 64 - 2 ^ 63

/-- Split a leading `+`/`-` sign off a character list, returning
whether the number is negative and the remaining characters. -/
def splitSign : List Char → Bool × List Char
  | '+' :: rest => (false, rest)
  | '-' :: rest => (true, rest)
  | l => (false, l)

/-- The value of a non-empty all-decimal-digit character list, `none`
otherwise. -/
def decDigits? (l : List Char) : Option Nat :=
  if l ≠ [] ∧ l.all Char.isDigit then
    some (l.foldl (fun acc ch => acc * 10 + (ch.toNat - '0'.toNat)) 0)
  else
    none

/-- The value component of Go `strconv.ParseInt(s, 10, 64)` (the error
is discarded by `NewPaginator`): `0` on a syntax error, the
maximum-magnitude `int64` of the appropriate sign on a range error, the
parsed value otherwise. -/
def goParseInt64 (s : String) : Int :=
  let sd := splitSign s.data
  match decDigits? sd.2 with
  | none => 0
  | some n =>
    if sd.1 then
      if (n : Int) > 2 ^ 63 then int64Min else -(n : Int)
    else
      if (n : Int) > int64Max then int64Max else (n : Int)

/-- Whether Go `strconv.ParseInt(s, 10, 64)` succeeds with a nil error
(`s` parses as an in-range base-10 `int64`). -/
def goParseInt64Ok (s : String) : Bool :=
  let sd := splitSign s.data
  match decDigits? sd.2 with
  | none => false
  | some n =>
    if sd.1 then decide ((n : Int) ≤ 2 ^ 63) else decide ((n : Int) ≤ int64Max)

/-- The fields of the `Paginator` value the claims are about. -/
structure Paginator where
  Page : Int
  PerPage : Int
  Offset : Int
  OrderBy : String
  OrderDir : String
  Filter : String
deriving Repr, DecidableEq

/-- From the paginator source, `NewPaginator`: parse both numeric strings discarding errors,
replace values below 1 with the defaults, and set
`Offset = (Page - 1) * PerPage` in `int64` (wrap-around)
arithmetic. -/
def NewPaginator (pageString perPageString orderBy orderDir filter : String) :
    Paginator :=
  let page0 := goParseInt64 pageString
  let perPage0 := goParseInt64 perPageString
  let page := if page0 < 1 then PaginatorPageDefault else page0
  let perPage := if perPage0 < 1 then PaginatorPerPageDefault else perPage0
  { Page := page
    PerPage := perPage
    Offset := wrap64 ((page - 1) * perPage)
    OrderBy := orderBy
    OrderDir := orderDir
    Filter := filter }

/-! ## Theorems -/

/-- Helper: a method containing a character outside `A`–`Z` is
invalid. -/
theorem validMethod_eq_false_of_badChar (m : String) (ch : Char)
    (hmem : ch ∈ m.data) (hch : ¬('A' ≤ ch ∧ ch ≤ 'Z')) :
    validMethod m = false := by
  unfold validMethod
  rw [Bool.eq_false_iff]
  intro htrue
  rw [Bool.and_eq_true, List.all_eq_true] at htrue
  have := htrue.2 ch hmem
  rw [Bool.and_eq_true, decide_eq_true_eq, decide_eq_true_eq] at this
  exact hch this

/-- C1: Abort halts downstream but not upstream: for a chain `[A, B, C]`
where `A` does pre-work, calls `Next()`, then post-work, and `B` calls
`Abort()` and returns, execution performs `A`'s pre-work, then `B`'s
work, then `A`'s post-work, and never invokes `C`; and once the cursor
sits at (or past) the abort sentinel, a further `Next()` call only
increments the cursor and invokes no handler. -/
theorem abort_halts_downstream_not_upstream :
    (∀ pre post b c : String,
      (execChain [[.log pre, .callNext, .log post], [.log b, .abortChain],
        [.log c]]).trace = [pre, b, post])
    ∧ ∀ st : ExecState, abortSentinel ≤ st.index →
        (st.chain.length : Int) ≤ 63 →
        doNext st = { st with index := st.index + 1 } := by
  constructor
  · intro pre post b c
    rfl
  · intro st h1 h2
    have h1' : (64 : Int) ≤ st.index := h1
    unfold doNext
    rw [if_neg]
    push_neg
    intro _
    omega

/-- Witness for C1 at a concrete chain and a concrete aborted state. -/
theorem abort_halts_downstream_not_upstream_witness :
    (execChain [[.log "A1", .callNext, .log "A2"], [.log "B", .abortChain],
      [.log "C"]]).trace = ["A1", "B", "A2"]
    ∧ doNext { chain := [[.log "C"]], index := 64, trace := [], stack := [] }
        = { chain := [[.log "C"]], index := 65, trace := [], stack := [] } :=
  ⟨abort_halts_downstream_not_upstream.1 "A1" "A2" "B" "C",
   abort_halts_downstream_not_upstream.2
     { chain := [[.log "C"]], index := 64, trace := [], stack := [] }
     (by decide) (by decide)⟩

/-- C2: Next() gives wrap-around execution: a chain
`[A(pre, Next, post), B, C]` executes in the order `A`-pre, `B`, `C`,
`A`-post — `A`'s call to `Next()` yields to the remainder of the chain
and resumes after it returns. -/
theorem next_wraparound_order (pre post b c : String) :
    (execChain [[.log pre, .callNext, .log post], [.log b], [.log c]]).trace
      = [pre, b, c, post] := by
  rfl

/-- C6: Pool isolation: serving a second request through the pooled
context that already served a first request yields exactly the result of
serving the second request through any other context — the context is
fully reset on acquisition, so no field of the first request's context
is observable; moreover the context handed to the handling step is the
canonical fresh context for the request. -/
theorem pool_isolation (handle : HTTPRequest → ReqContext → ReqContext)
    (c1 c2 : ReqContext) (r1 r2 : HTTPRequest) :
    ServeHTTP handle (ServeHTTP handle c1 r1) r2 = ServeHTTP handle c2 r2
    ∧ ∀ (c : ReqContext) (r : HTTPRequest),
        ctxReset { c with writer := resetWriter, request := some r }
          = { request := some r, handlers := [], index := -1, params := [],
              errors := [], writer := resetWriter } :=
  ⟨rfl, fun _ _ => rfl⟩

/-- C7: Handler-chain ceiling: combining group middleware with route
handlers panics at registration time exactly when the combined length
exceeds 63; at or below the ceiling the concatenated chain is
registered. -/
theorem handler_chain_ceiling (groupHandlers routeHandlers : HandlersChain) :
    (groupHandlers.length + routeHandlers.length > 63 →
      combineHandlers groupHandlers routeHandlers = none)
    ∧ (groupHandlers.length + routeHandlers.length ≤ 63 →
      combineHandlers groupHandlers routeHandlers
        = some (groupHandlers ++ routeHandlers)) := by
  constructor
  · intro h
    simp [combineHandlers, h]
  · intro h
    rw [combineHandlers, if_neg (by omega)]

/-- Witness for C7: 66 inherited middleware plus one route handler (the
`TestRouterGroupTooManyHandlers` scenario) panic; 62 plus one
succeed. -/
theorem handler_chain_ceiling_witness :
    combineHandlers (List.replicate 66 ([] : Handler)) [[]] = none
    ∧ combineHandlers (List.replicate 62 ([] : Handler)) [[]]
        = some (List.replicate 62 ([] : Handler) ++ [[]]) :=
  ⟨(handler_chain_ceiling (List.replicate 66 ([] : Handler)) [[]]).1 (by simp),
   (handler_chain_ceiling (List.replicate 62 ([] : Handler)) [[]]).2 (by simp)⟩

/-- C8: Fail-fast method validation: a method that is empty, contains a
space, or contains any character that is not an uppercase ASCII letter
makes `Handle` panic at registration time (`none`); it is never
silently accepted. -/
theorem bad_method_rejected (m p : String) (routeHandlers : HandlersChain)
    (h : m = "" ∨ (' ' ∈ m.data)
      ∨ ∃ ch ∈ m.data, ¬('A' ≤ ch ∧ ch ≤ 'Z')) :
    routerHandle m p [] routeHandlers = none := by
  have hv : validMethod m = false := by
    rcases h with h | h | ⟨ch, hmem, hch⟩
    · subst h
      rfl
    · exact validMethod_eq_false_of_badChar m ' ' h (by decide)
    · exact validMethod_eq_false_of_badChar m ch hmem hch
  simp [routerHandle, hv]

/-- Witness for C8 at the concrete methods of
`TestRouterGroupBadMethod`. -/
theorem bad_method_rejected_witness :
    routerHandle "PATCh" "/" [] [[]] = none
    ∧ routerHandle " GET" "/" [] [[]] = none
    ∧ routerHandle "" "/" [] [[]] = none :=
  ⟨bad_method_rejected "PATCh" "/" [[]]
     (Or.inr (Or.inr ⟨'h', by decide, by decide⟩)),
   bad_method_rejected " GET" "/" [[]] (Or.inr (Or.inl (by decide))),
   bad_method_rejected "" "/" [[]] (Or.inl rfl)⟩

/-- C3 counterexample: the claim's unconditional clauses fail on the
code.  With a trailing-slash mismatch reported and redirection enabled,
a CONNECT request is not redirected at all; and with redirection
disabled the result need not be a plain 404 — method-not-allowed
detection produces a 405. -/
theorem trailing_slash_claim_counterexample :
    (∀ code loc,
      handleHTTPRequest tsrEnabledConf "CONNECT" "/a"
        ≠ DispatchOutcome.redirect code loc)
    ∧ handleHTTPRequest tsrDisabledConf "GET" "/a"
        = DispatchOutcome.serveError 405 default405Body
    ∧ handleHTTPRequest tsrDisabledConf "GET" "/a"
        ≠ DispatchOutcome.serveError 404 default404Body := by
  refine ⟨?_, by rfl, by decide⟩
  intro code loc
  have h : handleHTTPRequest tsrEnabledConf "CONNECT" "/a"
      = DispatchOutcome.serveError 405 default405Body := by rfl
  rw [h]
  simp

/-- C3 (amended): Trailing-slash recovery: for a request with no exact
match, a reported trailing-slash mismatch, method other than CONNECT
and path other than "/": with trailing-slash redirection enabled the
dispatcher redirects to the corrected path (trailing slash stripped
when the path has more than one character and ends in '/', appended
otherwise) with status 301 when the method is GET and 307 for every
other method; with it disabled (and fixed-path correction and
method-not-allowed detection also disabled) the result is a plain
404. -/
theorem trailing_slash_recovery (a : RouterConf) (m p : String)
    (htree : a.hasTree m = true) (hfound : a.found m p = false)
    (htsr : a.tsr m p = true) (hm : m ≠ "CONNECT") (hp : p ≠ "/") :
    (a.redirectTrailingSlash = true →
      handleHTTPRequest a m p
        = DispatchOutcome.redirect (if m = "GET" then 301 else 307)
            (fixTrailingSlash p))
    ∧ (a.redirectTrailingSlash = false → a.redirectFixedPath = false →
      a.handleMethodNotAllowed = false →
      handleHTTPRequest a m p = DispatchOutcome.serveError 404 default404Body) := by
  constructor
  · intro hrts
    simp [handleHTTPRequest, htree, hfound, htsr, hm, hp, hrts]
  · intro h1 h2 h3
    simp [handleHTTPRequest, serveFallback, htree, hfound, htsr, hm, hp,
      h1, h2, h3]

/-- Witness for C3 (amended): a POST to `/a/` with a trailing-slash
mismatch is redirected with 307 to `/a`; a GET to `/a` with redirection
fully disabled yields the plain 404. -/
theorem trailing_slash_recovery_witness :
    handleHTTPRequest tsrEnabledConf "POST" "/a/"
      = DispatchOutcome.redirect 307 "/a"
    ∧ handleHTTPRequest
        { tsrDisabledConf with handleMethodNotAllowed := false } "GET" "/a"
      = DispatchOutcome.serveError 404 default404Body := by
  constructor
  · have h := (trailing_slash_recovery tsrEnabledConf "POST" "/a/"
      rfl rfl rfl (by decide) (by decide)).1 rfl
    rw [h]
    decide
  · exact (trailing_slash_recovery
      { tsrDisabledConf with handleMethodNotAllowed := false } "GET" "/a"
      rfl rfl rfl (by decide) (by decide)).2 rfl rfl rfl

/-- C4: 405 vs 404 precedence: whenever a request reaches the fallback
(no trie for the method, or no match and no redirect applied), the
dispatcher serves 405 with the generic 405 body exactly when
method-not-allowed detection is enabled and another method's trie
matches the path, and 404 with the generic 404 body otherwise — in
particular always 404 when detection is disabled. -/
theorem method_not_allowed_precedence (a : RouterConf) (m p : String)
    (hfall : a.hasTree m = false
      ∨ (a.found m p = false ∧ (m = "CONNECT" ∨ p = "/"
        ∨ ((a.tsr m p = false ∨ a.redirectTrailingSlash = false)
          ∧ (a.redirectFixedPath = false ∨ a.findCI m p = none))))) :
    handleHTTPRequest a m p
      = if a.handleMethodNotAllowed ∧ a.allowedNonEmpty p m then
          DispatchOutcome.serveError 405 default405Body
        else
          DispatchOutcome.serveError 404 default404Body := by
  show handleHTTPRequest a m p = serveFallback a m p
  rcases hfall with h | ⟨hfound, h⟩
  · simp [handleHTTPRequest, h]
  · rcases h with h | h | ⟨h1, h2⟩
    · subst h
      simp [handleHTTPRequest, hfound]
    · subst h
      simp [handleHTTPRequest, hfound]
    · by_cases htree : a.hasTree m
      · by_cases hcr : m ≠ "CONNECT" ∧ p ≠ "/"
        · rcases h2 with h2 | h2 <;>
            rcases h1 with h1 | h1 <;>
              simp [handleHTTPRequest, htree, hfound, hcr, h1, h2]
        · simp [handleHTTPRequest, htree, hfound, hcr]
      · simp [handleHTTPRequest, htree]

/-- Witness for C4: detection enabled with another method matching gives
the 405 body, detection disabled the 404 body, on the same miss. -/
theorem method_not_allowed_precedence_witness :
    handleHTTPRequest mnaConf "GET" "/x"
      = DispatchOutcome.serveError 405 default405Body
    ∧ handleHTTPRequest mnaDisabledConf "GET" "/x"
      = DispatchOutcome.serveError 404 default404Body := by
  constructor
  · have h := method_not_allowed_precedence mnaConf "GET" "/x"
      (Or.inr ⟨rfl, Or.inr (Or.inr ⟨Or.inl rfl, Or.inr rfl⟩)⟩)
    rw [h]
    rfl
  · have h := method_not_allowed_precedence mnaDisabledConf "GET" "/x"
      (Or.inr ⟨rfl, Or.inr (Or.inr ⟨Or.inl rfl, Or.inr rfl⟩)⟩)
    rw [h]
    rfl

/-- C9: Redirect suppression for CONNECT and root: a request whose
method is CONNECT or whose path is exactly "/" is never redirected —
even with both correction options enabled and corrections available —
and goes straight to the 405/404 fallback. -/
theorem connect_root_no_redirect (a : RouterConf) (m p : String)
    (h : m = "CONNECT" ∨ p = "/") (hfound : a.found m p = false) :
    handleHTTPRequest a m p = serveFallback a m p
    ∧ ∀ code loc, handleHTTPRequest a m p ≠ DispatchOutcome.redirect code loc := by
  have hmain : handleHTTPRequest a m p = serveFallback a m p := by
    by_cases htree : a.hasTree m
    · have hcr : ¬(m ≠ "CONNECT" ∧ p ≠ "/") := by
        rcases h with h | h <;> simp [h]
      simp [handleHTTPRequest, htree, hfound, hcr]
    · simp [handleHTTPRequest, htree]
  refine ⟨hmain, fun code loc => ?_⟩
  rw [hmain]
  unfold serveFallback
  split <;> simp

/-- Witness for C9: a CONNECT request with both corrections enabled and
applicable still yields the 404 fallback, not a redirect. -/
theorem connect_root_no_redirect_witness :
    handleHTTPRequest connectConf "CONNECT" "/a"
      = DispatchOutcome.serveError 404 default404Body := by
  have h := (connect_root_no_redirect connectConf "CONNECT" "/a"
    (Or.inl rfl) rfl).1
  rw [h]
  rfl

/-- C5: Panic recovery taxonomy, evaluated on the code: panics carrying
an `error` are served as 500 via `ServeError` unless classified as
broken-pipe/connection-reset, which are recorded and aborted without
writing; but a panic whose value does not implement `error` (the
failing input, e.g. `panic("boom")` with a plain string) makes the
middleware's own type assertion `err.(error)` panic instead of serving
a 500 — contradicting the claim and `PanicRecovery`'s doc comment
"recovers from any panics and serves error response". -/
theorem panic_recovery_taxonomy_eval :
    PanicRecovery (some (PanicValue.nonError "boom"))
      = RecoveryOutcome.assertionPanic
    ∧ PanicRecovery (some (PanicValue.netOpSyscall "write: broken pipe"))
      = RecoveryOutcome.recordAndAbort (PanicValue.netOpSyscall "write: broken pipe")
    ∧ PanicRecovery (some (PanicValue.netOpSyscall "read: Connection Reset By Peer"))
      = RecoveryOutcome.recordAndAbort
          (PanicValue.netOpSyscall "read: Connection Reset By Peer")
    ∧ PanicRecovery (some (PanicValue.otherError "oops"))
      = RecoveryOutcome.serve500 (PanicValue.otherError "oops")
    ∧ PanicRecovery (some (PanicValue.netOpSyscall "i/o timeout"))
      = RecoveryOutcome.serve500 (PanicValue.netOpSyscall "i/o timeout")
    ∧ PanicRecovery none = RecoveryOutcome.noPanic := by
  refine ⟨rfl, ?_, ?_, rfl, ?_, rfl⟩ <;> decide

/-- C10 counterexample: the input `"9223372036854775808"` (2^63) does
not parse as an `int64` (range error), yet `NewPaginator` keeps the
clamped value 9223372036854775807 as `Page` instead of replacing it
with the default 1. -/
theorem paginator_range_input_not_defaulted :
    goParseInt64Ok "9223372036854775808" = false
    ∧ (NewPaginator "9223372036854775808" "" "" "" "").Page
        = 9223372036854775807
    ∧ (NewPaginator "9223372036854775808" "" "" "" "").Page
        ≠ PaginatorPageDefault := by
  refine ⟨by decide, by decide, by decide⟩

/-- C10 (amended): Paginator normalization: `Page` and `PerPage` are
always at least 1; `Offset` equals `(Page - 1) * PerPage` computed in
wrap-around `int64` arithmetic; a numeric string that fails to parse
for a syntax reason (parsed value 0) or parses below 1 is replaced by
the defaults (Page 1, PerPage 20), while an out-of-range input is
clamped to the `int64` limit and, when at least 1, retained. -/
theorem paginator_normalization (ps pps ob od f : String) :
    1 ≤ (NewPaginator ps pps ob od f).Page
    ∧ 1 ≤ (NewPaginator ps pps ob od f).PerPage
    ∧ (NewPaginator ps pps ob od f).Offset
        = wrap64 (((NewPaginator ps pps ob od f).Page - 1)
            * (NewPaginator ps pps ob od f).PerPage)
    ∧ (goParseInt64 ps < 1 →
        (NewPaginator ps pps ob od f).Page = PaginatorPageDefault)
    ∧ (1 ≤ goParseInt64 ps →
        (NewPaginator ps pps ob od f).Page = goParseInt64 ps)
    ∧ (goParseInt64 pps < 1 →
        (NewPaginator ps pps ob od f).PerPage = PaginatorPerPageDefault) := by
  unfold NewPaginator PaginatorPageDefault PaginatorPerPageDefault
  refine ⟨?_, ?_, rfl, ?_, ?_, ?_⟩ <;> simp only [] <;> split <;> omega

/-- Witness for C10 (amended): `"0"` is defaulted to page 1, a
non-numeric per-page string is defaulted to 20, and `"3"` is kept. -/
theorem paginator_normalization_witness :
    (NewPaginator "0" "abc" "x" "y" "z").Page = PaginatorPageDefault
    ∧ (NewPaginator "0" "abc" "x" "y" "z").PerPage = PaginatorPerPageDefault
    ∧ (NewPaginator "3" "" "" "" "").Page = goParseInt64 "3" :=
  ⟨(paginator_normalization "0" "abc" "x" "y" "z").2.2.2.1 (by decide),
   (paginator_normalization "0" "abc" "x" "y" "z").2.2.2.2.2 (by decide),
   (paginator_normalization "3" "" "" "" "").2.2.2.2.1 (by decide)⟩

end Cucumber
